import Mathlib

/-!
Verification of the ollama-copilot completion relay.

Shallow embedding of the Go sources:
- the completion handler (request decoding, generate-option assembly,
  chunk filtering, stream termination, synthetic terminal record);
- the prompt windowing helper getLinesAroundCursor;
- the self-signed certificate generator selfAssignCertificate.

Go strings are modelled as Lean String (byte-vs-char differences do not
matter for the ASCII data handled here); Go int as Int; Go slices as List;
Go time.Time instants as an explicit calendar date structure.
-/

namespace OllamaCopilot

/-- CompletionRequest from completion_handler.go: the decoded JSON body of an
inbound completion request. Fields of the nested Extra object are inlined. -/
structure CompletionRequest where
  language : String
  nextIndent : Int
  promptTokens : Int
  suffixTokens : Int
  trimByIndentation : Bool
  maxTokens : Int
  n : Int
  prompt : String
  stop : List String
  stream : Bool
  suffix : String
  temperature : Float
  topP : Int

/-- minInt from the completion handler: Go `if a < b then a else b`. -/
def minInt (a b : Int) : Int :=
  if a < b then a else b

/-- The reserved end-of-turn marker appended to the stop list. -/
def imEndMarker : String := "<|im_end|>"

/-- ensureImEndStop from the completion handler: scan the stop list for the
reserved marker; return the list unchanged when found, else append the
marker at the end. -/
def ensureImEndStop (stop : List String) : List String :=
  if stop.any (fun tok => tok == imEndMarker) then stop
  else stop ++ [imEndMarker]

/-- The backend-bound generation options map assembled in generateCompletion:
temperature and top_p copied verbatim, stop via ensureImEndStop, num_predict
via minInt of the requested max_tokens and the configured ceiling. -/
structure GenOptions where
  temperature : Float
  topP : Int
  stop : List String
  numPredict : Int

/-- Option assembly from generateCompletion in the completion handler. -/
def buildGenOptions (req : CompletionRequest) (chNumPredict : Int) : GenOptions :=
  { temperature := req.temperature
  , topP := req.topP
  , stop := ensureImEndStop req.stop
  , numPredict := minInt req.maxTokens chNumPredict }

/-- minInt computes the binary minimum. -/
theorem minInt_eq_min (a b : Int) : minInt a b = min a b := by
  unfold minInt
  split <;> omega

/-- Membership behaviour of ensureImEndStop. -/
theorem ensureImEndStop_spec (stop : List String) :
    (imEndMarker ∈ ensureImEndStop stop) ∧
    (imEndMarker ∈ stop → ensureImEndStop stop = stop) ∧
    (imEndMarker ∉ stop → ensureImEndStop stop = stop ++ [imEndMarker]) := by
  unfold ensureImEndStop
  by_cases h : imEndMarker ∈ stop
  · simp [List.any_eq_true, h]
  · simp [List.any_eq_true, h]

/-- A concrete request used to instantiate claim theorems. -/
def sampleRequest : CompletionRequest :=
  { language := "go"
  , nextIndent := 0
  , promptTokens := 0
  , suffixTokens := 0
  , trimByIndentation := false
  , maxTokens := 300
  , n := 1
  , prompt := "package main"
  , stop := ["\n\n"]
  , stream := true
  , suffix := "\x7d"
  , temperature := 0.2
  , topP := 1 }

/-- C1: the num_predict placed into the backend-bound generate options equals
min(requested max_tokens, configured ceiling); in particular, whenever the
requested max_tokens exceeds the ceiling, num_predict equals the ceiling and
never the requested value. -/
theorem c1_num_predict_capped (req : CompletionRequest) (ceiling : Int) :
    (buildGenOptions req ceiling).numPredict = min req.maxTokens ceiling ∧
    (ceiling < req.maxTokens →
      (buildGenOptions req ceiling).numPredict = ceiling ∧
      (buildGenOptions req ceiling).numPredict ≠ req.maxTokens) := by
  have hmin : (buildGenOptions req ceiling).numPredict = min req.maxTokens ceiling := by
    show minInt req.maxTokens ceiling = min req.maxTokens ceiling
    exact minInt_eq_min _ _
  refine ⟨hmin, fun h => ⟨?_, ?_⟩⟩ <;> rw [hmin] <;> omega

/-- Witness for C1 at a concrete input: the sample request asks for 300 tokens
against a ceiling of 200, and the backend-bound num_predict is 200, not 300. -/
theorem c1_num_predict_capped_witness :
    (buildGenOptions sampleRequest 200).numPredict = 200 ∧
    (buildGenOptions sampleRequest 200).numPredict ≠ sampleRequest.maxTokens :=
  (c1_num_predict_capped sampleRequest 200).2 (by decide)

/-- C2 counterexample: a request stop list already containing the reserved
end-of-turn marker twice is passed through unchanged, so the backend-bound
stop set contains the marker twice, not exactly once, and is not
deduplicated. -/
theorem c2_marker_not_unique_counterexample :
    ensureImEndStop [imEndMarker, imEndMarker] = [imEndMarker, imEndMarker] ∧
    List.count imEndMarker (ensureImEndStop [imEndMarker, imEndMarker]) = 2 ∧
    (buildGenOptions { sampleRequest with stop := [imEndMarker, imEndMarker] } 200).stop
      = [imEndMarker, imEndMarker] := by
  refine ⟨by decide, by decide, ?_⟩
  show ensureImEndStop [imEndMarker, imEndMarker] = [imEndMarker, imEndMarker]
  decide

/-- C2 as amended: the backend-bound stop set always contains the reserved
end-of-turn marker at least once — the request stops are passed through
unchanged when the marker is already present (duplicates preserved, no
deduplication), and the marker is appended exactly once when absent. -/
theorem c2_stop_marker_present (req : CompletionRequest) (ceiling : Int) :
    (imEndMarker ∈ (buildGenOptions req ceiling).stop) ∧
    (imEndMarker ∈ req.stop → (buildGenOptions req ceiling).stop = req.stop) ∧
    (imEndMarker ∉ req.stop →
      (buildGenOptions req ceiling).stop = req.stop ++ [imEndMarker]) := by
  have h := ensureImEndStop_spec req.stop
  exact ⟨h.1, h.2.1, h.2.2⟩

/-- Witness for C2 (amended) at a concrete input: the sample request's stop
list lacks the marker, so it is appended once. -/
theorem c2_stop_marker_present_witness :
    imEndMarker ∈ (buildGenOptions sampleRequest 200).stop ∧
    (buildGenOptions sampleRequest 200).stop = sampleRequest.stop ++ [imEndMarker] :=
  ⟨(c2_stop_marker_present sampleRequest 200).1,
   (c2_stop_marker_present sampleRequest 200).2.2 (by decide)⟩

/-- A backend stream fragment delivered to the generate callback:
the text of the fragment and the final ("done") flag. -/
structure GenerateResponse where
  response : String
  done : Bool
deriving DecidableEq

/-- State of the handler's streaming loop in ServeHTTP
(completion_handler.go): the client-visible records written so far and
whether the one-shot done channel has been closed. Closing an
already-closed Go channel panics, modelled by the panicked state. -/
inductive StreamState where
  | running (records : List String) (doneClosed : Bool)
  | panicked (records : List String)
deriving DecidableEq

/-- One invocation of the generate callback in ServeHTTP
(completion_handler.go lines 149-178): a response record carrying the
fragment text is always encoded to the client, then, when the fragment's
done flag is set, the done channel is closed — with no guard against a
second close. Write errors are not modelled (the claim concerns callback
idempotence, not transport failures). -/
def callbackStep : StreamState → GenerateResponse → StreamState
  | .panicked rs, _ => .panicked rs
  | .running rs closed, resp =>
      let rs2 := rs ++ [resp.response]
      if resp.done then
        if closed then .panicked rs2
        else .running rs2 true
      else .running rs2 closed

/-- The streaming loop over a delivered fragment sequence, starting with no
records written and the done channel open. -/
def runCallbacks (frags : List GenerateResponse) : StreamState :=
  frags.foldl callbackStep (.running [] false)

/-- C3 evaluated at the failing inputs: after the final flag has fired,
a second final-flagged fragment closes the already-closed done channel and
panics (it is not a no-op), and a subsequent non-final fragment still emits
a record to the client (also not a no-op). -/
theorem c3_callback_after_final_not_noop :
    runCallbacks [⟨"a", true⟩, ⟨"", true⟩] = .panicked ["a", ""] ∧
    runCallbacks [⟨"a", true⟩, ⟨"b", false⟩] = .running ["a", "b"] true ∧
    runCallbacks [⟨"a", true⟩] = .running ["a"] true := by
  refine ⟨?_, ?_, ?_⟩ <;> decide

/-- Whitespace test used by Go strings.TrimSpace (unicode.IsSpace), covering
its Latin-1 range; space code points above U+00FF do not occur in the data
handled by the filter. -/
def goIsSpace (c : Char) : Bool :=
  c == ' ' || c == '\t' || c == '\n' || c == Char.ofNat 11 ||
  c == Char.ofNat 12 || c == '\r' || c == Char.ofNat 0x85 || c == Char.ofNat 0xA0

/-- Go strings.TrimSpace: drop leading and trailing whitespace. -/
def trimSpace (s : String) : String :=
  String.mk (((s.toList.dropWhile goIsSpace).reverse.dropWhile goIsSpace).reverse)

/-- Go strings.TrimPrefix(chunk, newline) guarded by strings.HasPrefix:
remove exactly one leading newline character when present. -/
def dropLeadingNewline (s : String) : String :=
  match s.toList with
  | '\n' :: rest => String.mk rest
  | _ => s

/-- Whether a string has a leading newline (Go strings.HasPrefix with a
newline prefix). -/
def hasLeadingNewline (s : String) : Bool :=
  match s.toList with
  | '\n' :: _ => true
  | _ => false

/-- The artifact filter inside the generateCompletion callback: a fragment
whose trimmed text is exactly a bare code fence or the literal token
"python" is suppressed (no record, and the skip flag is raised); otherwise
the fragment is forwarded, with one leading newline stripped when the
previous fragment was suppressed, and the skip flag is cleared.
Returns the new skip flag and the emitted text, if any. -/
def filterStep (prevSkipped : Bool) (resp : GenerateResponse) : Bool × Option String :=
  let trimmed := trimSpace resp.response
  if trimmed == "```" || trimmed == "python" then (true, none)
  else
    let chunk := resp.response
    let chunk := if prevSkipped && hasLeadingNewline chunk then dropLeadingNewline chunk
                 else chunk
    (false, some chunk)

/-- The client-visible texts emitted for a backend fragment sequence, folding
the artifact filter over the fragments in arrival order. -/
def filterFragments (frags : List GenerateResponse) : List String :=
  (frags.foldl
    (fun acc resp =>
      match filterStep acc.1 resp with
      | (ps, none) => (ps, acc.2)
      | (ps, some c) => (ps, acc.2 ++ [c]))
    (false, ([] : List String))).2

/-- C4 counterexample: a bare language-name fragment is in general not
suppressed — for a request whose language hint is "go", the single-fragment
sequence consisting of the bare token "go" yields one record carrying "go",
not zero records. Only the literal tokens enumerated in the filter are
suppressed. -/
theorem c4_language_token_not_suppressed_counterexample :
    filterFragments [⟨"go", true⟩] = ["go"] ∧
    (filterFragments [⟨"go", true⟩]).length = 1 := by
  refine ⟨by decide, by decide⟩

/-- C4 as amended: the fragment sequence of a bare code fence, a
newline-led definition line and a continuation yields exactly the
client-visible texts with the fence suppressed and the following leading
newline stripped exactly once; a fragment whose trimmed text is exactly the
bare code-fence marker or the literal language token "python" is suppressed
and yields zero records; and only one leading newline is stripped from the
fragment following a suppressed one. -/
theorem c4_artifact_filter :
    filterFragments [⟨"```", false⟩, ⟨"\ndef foo():", false⟩, ⟨" pass", true⟩]
      = ["def foo():", " pass"] ∧
    (∀ resp : GenerateResponse, ∀ prevSkipped : Bool,
      (trimSpace resp.response = "```" ∨ trimSpace resp.response = "python") →
      filterStep prevSkipped resp = (true, none)) ∧
    filterFragments [⟨"```", false⟩, ⟨"\n\nx", false⟩] = ["\nx"] ∧
    filterFragments [⟨"python", false⟩] = [] := by
  refine ⟨by decide, ?_, by decide, by decide⟩
  intro resp prevSkipped h
  unfold filterStep
  rcases h with h | h <;> simp [h]

/-- Witness for C4 (amended) at a concrete input: a fragment consisting of a
fenced marker surrounded by whitespace is suppressed. -/
theorem c4_artifact_filter_witness :
    filterStep true ⟨"  ```\n", false⟩ = (true, none) :=
  c4_artifact_filter.2.1 ⟨"  ```\n", false⟩ true (Or.inl (by decide))

/-- Go strings.Split(s, newline) on the character list of a string: split
into the (always non-empty) list of newline-separated lines. -/
def splitOnNl : List Char → List (List Char)
  | [] => [[]]
  | c :: rest =>
    match splitOnNl rest with
    | [] => [[]]
    | line :: lines =>
      if c = '\n' then [] :: line :: lines
      else (c :: line) :: lines

/-- Go strings.Join(lines, newline): interleave a newline between lines. -/
def joinNl : List (List Char) → List Char
  | [] => []
  | [line] => line
  | line :: lines => line ++ '\n' :: joinNl lines

theorem splitOnNl_ne_nil (l : List Char) : splitOnNl l ≠ [] := by
  cases l with
  | nil => simp [splitOnNl]
  | cons c rest =>
    unfold splitOnNl
    cases splitOnNl rest with
    | nil => simp
    | cons line lines => by_cases hc : c = '\n' <;> simp [hc]

theorem joinNl_cons_cons (c : Char) (line : List Char) (lines : List (List Char)) :
    joinNl ((c :: line) :: lines) = c :: joinNl (line :: lines) := by
  cases lines with
  | nil => rfl
  | cons m ms => simp [joinNl]

/-- Joining the newline-split pieces reproduces the original characters. -/
theorem joinNl_splitOnNl (l : List Char) : joinNl (splitOnNl l) = l := by
  induction l with
  | nil => rfl
  | cons c rest ih =>
    cases hsplit : splitOnNl rest with
    | nil => exact absurd hsplit (splitOnNl_ne_nil rest)
    | cons line lines =>
      rw [hsplit] at ih
      by_cases hc : c = '\n'
      · subst hc
        simp only [splitOnNl, hsplit, if_pos rfl, joinNl]
        simpa using ih
      · simp only [splitOnNl, hsplit, if_neg hc]
        rw [joinNl_cons_cons, ih]

/-- getLinesAroundCursor from the completion handler: keep at most the last
`before` lines of the prefix text and at most the first `after` lines of the
suffix text, joining lines back with newlines. -/
def getLinesAroundCursor (prefixText suffixText : String) (before after : Nat) :
    String × String :=
  let prefixLines := splitOnNl prefixText.toList
  let n := prefixLines.length
  let start := if n > before then n - before else 0
  let windowedPre := String.mk (joinNl (prefixLines.drop start))
  let suffixLines := splitOnNl suffixText.toList
  let keptSuffixLines :=
    if suffixLines.length > after then suffixLines.take after else suffixLines
  (windowedPre, String.mk (joinNl keptSuffixLines))

theorem string_mk_toList (s : String) : String.mk s.toList = s := rfl

theorem getLinesAroundCursor_fst (p s : String) (before after : Nat) :
    (getLinesAroundCursor p s before after).1
      = String.mk (joinNl ((splitOnNl p.toList).drop
          (if (splitOnNl p.toList).length > before
           then (splitOnNl p.toList).length - before else 0))) := rfl

theorem getLinesAroundCursor_snd (p s : String) (before after : Nat) :
    (getLinesAroundCursor p s before after).2
      = String.mk (joinNl
          (if (splitOnNl s.toList).length > after
           then (splitOnNl s.toList).take after else splitOnNl s.toList)) := rfl

/-- C5: with a 200-line prefix and a 100-line suffix and window sizes 60/60,
the windowed prefix is exactly the join of the last 60 prefix lines and the
windowed suffix exactly the join of the first 60 suffix lines, in original
order; and any prefix/suffix at or under 60 lines passes through
unchanged. -/
theorem c5_windowing (p s : String)
    (hp : (splitOnNl p.toList).length = 200)
    (hs : (splitOnNl s.toList).length = 100) :
    (getLinesAroundCursor p s 60 60).1
      = String.mk (joinNl ((splitOnNl p.toList).drop 140)) ∧
    ((splitOnNl p.toList).drop 140).length = 60 ∧
    (getLinesAroundCursor p s 60 60).2
      = String.mk (joinNl ((splitOnNl s.toList).take 60)) ∧
    ((splitOnNl s.toList).take 60).length = 60 ∧
    (∀ p2 s2 : String, (splitOnNl p2.toList).length ≤ 60 →
      (splitOnNl s2.toList).length ≤ 60 →
      getLinesAroundCursor p2 s2 60 60 = (p2, s2)) := by
  refine ⟨?_, ?_, ?_, ?_, ?_⟩
  · rw [getLinesAroundCursor_fst, hp]
    norm_num
  · rw [List.length_drop, hp]
  · rw [getLinesAroundCursor_snd, hs]
    norm_num
  · rw [List.length_take, hs]
    omega
  · intro p2 s2 hp2 hs2
    have h1 : ¬ ((splitOnNl p2.toList).length > 60) := by omega
    have h2 : ¬ ((splitOnNl s2.toList).length > 60) := by omega
    have e1 := getLinesAroundCursor_fst p2 s2 60 60
    have e2 := getLinesAroundCursor_snd p2 s2 60 60
    rw [if_neg h1, List.drop_zero, joinNl_splitOnNl, string_mk_toList] at e1
    rw [if_neg h2, joinNl_splitOnNl, string_mk_toList] at e2
    exact Prod.ext e1 e2

/-- A 200-line prefix (199 newline characters) for the C5 witness. -/
def prefix200 : String := String.mk (List.replicate 199 '\n')

/-- A 100-line suffix (99 newline characters) for the C5 witness. -/
def suffix100 : String := String.mk (List.replicate 99 '\n')

set_option maxRecDepth 8192 in
/-- Witness for C5 at concrete 200-line / 100-line inputs. -/
theorem c5_windowing_witness :
    (splitOnNl prefix200.toList).length = 200 ∧
    (getLinesAroundCursor prefix200 suffix100 60 60).1
      = String.mk (joinNl ((splitOnNl prefix200.toList).drop 140)) ∧
    (getLinesAroundCursor prefix200 suffix100 60 60).2
      = String.mk (joinNl ((splitOnNl suffix100.toList).take 60)) :=
  ⟨by decide,
   (c5_windowing prefix200 suffix100 (by decide) (by decide)).1,
   (c5_windowing prefix200 suffix100 (by decide) (by decide)).2.2.1⟩

/-- The synthetic terminal record built in generateCompletion when the
stream ends by deadline or disconnect: field-for-field the literal map
written to the client, with instants in nanoseconds. -/
structure FinalChunk where
  model : String
  createdAt : Int
  response : String
  done : Bool
  totalDuration : Int
  loadDuration : Int
  promptEvalCount : Int
  promptEvalDuration : Int
  evalCount : Int
  evalDuration : Int
deriving DecidableEq

/-- The literal final chunk from generateCompletion: empty text, done flag
set, total duration the elapsed wall-clock nanoseconds, every other engine
counter zero. -/
def syntheticFinalChunk (model : String) (startTime endTime : Int) : FinalChunk :=
  { model := model
  , createdAt := endTime
  , response := ""
  , done := true
  , totalDuration := endTime - startTime
  , loadDuration := 0
  , promptEvalCount := 0
  , promptEvalDuration := 0
  , evalCount := 0
  , evalDuration := 0 }

/-- Client-visible output of one generateCompletion call: the filtered
stream texts, followed by the synthetic terminal record exactly when the
deadline or a client disconnect fired before the backend's final flag
(the branch where the select statement yields a context error). -/
def generateOutput (model : String) (frags : List GenerateResponse)
    (cancelledBeforeFinal : Bool) (startTime endTime : Int) :
    List String × List FinalChunk :=
  (filterFragments frags,
   if cancelledBeforeFinal then [syntheticFinalChunk model startTime endTime] else [])

/-- C6: when the deadline elapses or the client disconnects before the final
flag, exactly one synthetic terminal record follows the stream: empty text,
final flag set, total duration the elapsed wall-clock time, and all
engine-internal counters zero; on a normally completed stream no synthetic
record is emitted. -/
theorem c6_synthetic_terminal_record (model : String) (frags : List GenerateResponse)
    (startTime endTime : Int) :
    (generateOutput model frags true startTime endTime).2
      = [syntheticFinalChunk model startTime endTime] ∧
    (generateOutput model frags true startTime endTime).2.length = 1 ∧
    (syntheticFinalChunk model startTime endTime).response = "" ∧
    (syntheticFinalChunk model startTime endTime).done = true ∧
    (syntheticFinalChunk model startTime endTime).totalDuration = endTime - startTime ∧
    (syntheticFinalChunk model startTime endTime).loadDuration = 0 ∧
    (syntheticFinalChunk model startTime endTime).promptEvalCount = 0 ∧
    (syntheticFinalChunk model startTime endTime).promptEvalDuration = 0 ∧
    (syntheticFinalChunk model startTime endTime).evalCount = 0 ∧
    (syntheticFinalChunk model startTime endTime).evalDuration = 0 ∧
    (generateOutput model frags false startTime endTime).2 = [] := by
  refine ⟨rfl, rfl, rfl, rfl, rfl, rfl, rfl, rfl, rfl, rfl, rfl⟩

/-- Result of decoding the inbound JSON body. -/
inductive DecodeResult where
  | failure (msg : String)
  | ok (req : CompletionRequest)

/-- The data rendered by the fill-in-the-middle prompt template. -/
structure PromptData where
  prefixText : String
  suffixText : String

/-- Either a value, or a fatal log call which terminates the whole
process (zap Logger.Fatal calls os.Exit). -/
inductive FatalOr (α : Type) where
  | fatal (logMsg : String)
  | ok (val : α)

/-- Prompt.Generate from completion_handler.go: execute the configured
template (modelled as a function from the prompt data to the template
engine's result) and, on any execution error, call Logger.Fatal — ending
the process — instead of returning an error. -/
def promptGenerate (p : PromptData)
    (tmplExec : PromptData → Except String String) : FatalOr String :=
  match tmplExec p with
  | .error _ => .fatal "Error parsing the prompt template"
  | .ok rendered => .ok rendered

/-- System.Generate from completion_handler.go: the fixed instructional
template with the language name substituted. Its constant template always
parses and executes, so the result is total. -/
def systemGenerate (language : String) : String :=
  "You are an expert AI programming assistant for " ++ language ++
  ". You write simple, concise code. Your task is to Fill-in-the-middle (FIM) or infill. Only output the code completion without any preamble, explanation, or markdown formatting."

/-- Observable outcome of one ServeHTTP call, up to the backend call:
responded = returned immediately after writing the given status, with no
body bytes and no backend call; processExit = Logger.Fatal terminated the
process after the given status was already committed; streaming = status
committed and the backend generate call issued with the rendered prompts. -/
inductive HandlerOutcome where
  | responded (status : Nat) (backendCalled : Bool)
  | processExit (committedStatus : Nat)
  | streaming (committedStatus : Nat) (prompt : String) (sysPrompt : String)
deriving DecidableEq

/-- ServeHTTP from completion_handler.go, up to the backend generate call:
reject non-POST methods with 405; reject undecodable bodies with 400;
otherwise commit status 200, render the prompt (a template failure here is
a fatal log), and invoke the backend with the rendered prompt and system
prompt. -/
def serveHTTP (method : String) (body : DecodeResult)
    (tmplExec : PromptData → Except String String) : HandlerOutcome :=
  if method ≠ "POST" then .responded 405 false
  else
    match body with
    | .failure _ => .responded 400 false
    | .ok req =>
      match promptGenerate ⟨req.prompt, req.suffix⟩ tmplExec with
      | .fatal _ => .processExit 200
      | .ok prompt => .streaming 200 prompt (systemGenerate req.language)

/-- The HTTP status set (or committed) by the handler. -/
def outcomeStatus : HandlerOutcome → Nat
  | .responded status _ => status
  | .processExit status => status
  | .streaming status _ _ => status

/-- Whether the backend generate call was reached. -/
def outcomeBackendCalled : HandlerOutcome → Bool
  | .responded _ called => called
  | .processExit _ => false
  | .streaming _ _ _ => true

/-- Whether any response body byte was written before the handler
returned or the stream began. -/
def outcomeWroteBody : HandlerOutcome → Bool
  | .responded _ _ => false
  | .processExit _ => false
  | .streaming _ _ _ => false

/-- C8: a POST whose body fails to decode is answered with status 400, no
backend call, and the handler returns immediately without writing a body. -/
theorem c8_bad_body_rejected (msg : String)
    (tmplExec : PromptData → Except String String) :
    serveHTTP "POST" (.failure msg) tmplExec = .responded 400 false ∧
    outcomeStatus (serveHTTP "POST" (.failure msg) tmplExec) = 400 ∧
    outcomeBackendCalled (serveHTTP "POST" (.failure msg) tmplExec) = false ∧
    outcomeWroteBody (serveHTTP "POST" (.failure msg) tmplExec) = false := by
  refine ⟨rfl, rfl, rfl, rfl⟩

/-- C10: any request whose method is not POST is answered with status 405,
no body write, and no backend call. -/
theorem c10_non_post_rejected (method : String) (h : method ≠ "POST")
    (body : DecodeResult) (tmplExec : PromptData → Except String String) :
    serveHTTP method body tmplExec = .responded 405 false ∧
    outcomeStatus (serveHTTP method body tmplExec) = 405 ∧
    outcomeBackendCalled (serveHTTP method body tmplExec) = false ∧
    outcomeWroteBody (serveHTTP method body tmplExec) = false := by
  have he : serveHTTP method body tmplExec = .responded 405 false := by
    unfold serveHTTP
    rw [if_pos h]
  refine ⟨he, by rw [he]; rfl, by rw [he]; rfl, by rw [he]; rfl⟩

/-- Witness for C10 at a concrete input: a GET request is answered 405. -/
theorem c10_non_post_rejected_witness :
    serveHTTP "GET" (.ok sampleRequest) (fun _ => Except.ok "") = .responded 405 false :=
  (c10_non_post_rejected "GET" (by decide) (.ok sampleRequest) (fun _ => Except.ok "")).1

/-- A template execution that fails, as the Go text/template engine reports
it for a template referencing a missing field. -/
def failingTemplate : PromptData → Except String String :=
  fun _ => .error "template: prompt: can't evaluate field DoesNotExist"

/-- C7 evaluated at the failing input: when prompt-template rendering fails,
the handler does not answer with a server-error status confined to the
request — Prompt.Generate calls Logger.Fatal, terminating the whole process,
and status 200 was already committed before rendering began. -/
theorem c7_template_failure_kills_process :
    serveHTTP "POST" (.ok sampleRequest) failingTemplate = .processExit 200 ∧
    promptGenerate ⟨sampleRequest.prompt, sampleRequest.suffix⟩ failingTemplate
      = .fatal "Error parsing the prompt template" ∧
    outcomeStatus (serveHTTP "POST" (.ok sampleRequest) failingTemplate) = 200 := by
  refine ⟨rfl, rfl, rfl⟩

/-- A Go time.Time instant at calendar granularity: year, month, day and
nanosecond-of-day. -/
structure GoDate where
  year : Int
  month : Int
  day : Int
  nanoOfDay : Int
deriving DecidableEq

/-- Gregorian leap-year test, as in Go's time package. -/
def isLeapYear (y : Int) : Bool :=
  (y % 4 == 0 && y % 100 != 0) || y % 400 == 0

/-- Go time.Time.AddDate(n, 0, 0) on a valid date: add n to the year; the
only normalization case with zero month and day offsets is February 29
mapping to March 1 of a non-leap target year. -/
def goAddYears (d : GoDate) (n : Int) : GoDate :=
  let y := d.year + n
  if d.month == 2 && d.day == 29 && !isLeapYear y then
    { d with year := y, month := 3, day := 1 }
  else
    { d with year := y }

/-- Go crypto/x509 KeyUsage bit for a digital signature. -/
def keyUsageDigitalSignature : Nat := 1

/-- Go crypto/x509 KeyUsage bit for content commitment. -/
def keyUsageContentCommitment : Nat := 2

/-- Go crypto/x509 KeyUsage bit for key encipherment. -/
def keyUsageKeyEncipherment : Nat := 4

/-- Go crypto/x509 KeyUsage bit for certificate signing. -/
def keyUsageCertSign : Nat := 32

/-- Go crypto/x509 extended key usages relevant here. -/
inductive ExtKeyUsage where
  | serverAuth
  | clientAuth
deriving DecidableEq

/-- The x509 certificate template fields set by selfAssignCertificate. -/
structure X509Template where
  serialNumber : Int
  subjectCommonName : String
  notBefore : GoDate
  notAfter : GoDate
  keyUsage : Nat
  extKeyUsage : List ExtKeyUsage
  basicConstraintsValid : Bool
deriving DecidableEq

/-- The issued TLS certificate: the RSA key size requested from the key
generator and the self-signed template (issuer = subject). Key-generation
and encoding failures abort startup and are outside this model. -/
structure TLSCertificate where
  rsaKeyBits : Nat
  template : X509Template
deriving DecidableEq

/-- selfAssignCertificate from server.go, parameterized by the creation
instant observed from the wall clock: a 2048-bit RSA key and a self-signed
template with serial 1, CN localhost, validity from the creation instant to
thirty calendar years later, key usages key-encipherment, digital-signature
and cert-sign, and extended key usage server-auth. -/
def selfAssignCertificate (now : GoDate) : TLSCertificate :=
  { rsaKeyBits := 2048
  , template :=
    { serialNumber := 1
    , subjectCommonName := "localhost"
    , notBefore := now
    , notAfter := goAddYears now 30
    , keyUsage := keyUsageKeyEncipherment ||| keyUsageDigitalSignature ||| keyUsageCertSign
    , extKeyUsage := [ExtKeyUsage.serverAuth]
    , basicConstraintsValid := true } }

theorem keyUsage_bits_value :
    keyUsageKeyEncipherment ||| keyUsageDigitalSignature ||| keyUsageCertSign = 37 := by
  decide

theorem keyUsage_bits_no_content_commitment :
    (keyUsageKeyEncipherment ||| keyUsageDigitalSignature ||| keyUsageCertSign)
      &&& keyUsageContentCommitment = 0 := by
  decide

theorem goAddYears_year (d : GoDate) (n : Int) : (goAddYears d n).year = d.year + n := by
  unfold goAddYears
  dsimp only
  split <;> rfl

/-- C9: the startup self-signed certificate has a 2048-bit RSA key, common
name localhost, serial number 1, NotBefore equal to the creation instant,
NotAfter equal to NotBefore plus 30 calendar years, key usages exactly
key-encipherment plus digital-signature plus cert-sign (bit value 37, with
no other usage bit set), and extended key usage exactly server-auth. -/
theorem c9_self_signed_certificate (now : GoDate) :
    (selfAssignCertificate now).rsaKeyBits = 2048 ∧
    (selfAssignCertificate now).template.subjectCommonName = "localhost" ∧
    (selfAssignCertificate now).template.serialNumber = 1 ∧
    (selfAssignCertificate now).template.notBefore = now ∧
    (selfAssignCertificate now).template.notAfter
      = goAddYears ((selfAssignCertificate now).template.notBefore) 30 ∧
    ((selfAssignCertificate now).template.notAfter).year = now.year + 30 ∧
    (selfAssignCertificate now).template.keyUsage
      = keyUsageKeyEncipherment ||| keyUsageDigitalSignature ||| keyUsageCertSign ∧
    (selfAssignCertificate now).template.keyUsage = 37 ∧
    (selfAssignCertificate now).template.keyUsage &&& keyUsageContentCommitment = 0 ∧
    (selfAssignCertificate now).template.extKeyUsage = [ExtKeyUsage.serverAuth] := by
  refine ⟨rfl, rfl, rfl, rfl, rfl, ?_, rfl, keyUsage_bits_value,
    keyUsage_bits_no_content_commitment, rfl⟩
  exact goAddYears_year now 30

end OllamaCopilot
